import Mathlib

/-!
Verification of the transit-dashboard server-side cache layer.

A shallow embedding of the Go backend of `transit-dashboard`
(`backend/cache.go` together with the entrance filter of the routing
layer).  Time stamps and durations are modelled as `Nat` nanoseconds,
matching the Go `time.Time` / `time.Duration` resolution; the upstream
WMATA API is modelled as an oracle supplying the (already combined)
fetch-and-parse result of each endpoint; the mutex-serialized execution
of refreshes is modelled by explicit state passing.  Every operation
additionally reports the number of outbound upstream HTTP requests it
performed, so "no network call occurs" is expressible.
-/

namespace Transit

/-- Errors produced by the Go helpers: transport-level failures
(request construction, `client.Do`, `io.ReadAll`), a non-200 upstream
HTTP status (the `fmt.Errorf("API returned status %d", ...)` branch of
`fetchFromWMATA`, which records the status), and JSON unmarshal
failures. -/
inductive GoError where
  | transport : GoError
  | upstream (status : Nat) : GoError
  | parse : GoError
deriving DecidableEq, Repr

/-- What the HTTP round trip inside `fetchFromWMATA` produced before the
status-code check: either a transport-level failure on some exit path
before the check, or a complete response with status code and body. -/
inductive HTTPOutcome where
  | transportFail : HTTPOutcome
  | response (status : Nat) (body : String) : HTTPOutcome
deriving DecidableEq, Repr

/-- Model of `fetchFromWMATA` (backend/cache.go): transport failures are returned
as-is; otherwise the body is read and the status code is compared against
exactly `200` — any other status yields an error carrying that status. -/
def fetchFromWMATA : HTTPOutcome → Except GoError String
  | .transportFail => .error .transport
  | .response status body =>
      if status ≠ 200 then .error (.upstream status) else .ok body

/-- Basic station directory record (`Station` in main.go). -/
structure Station where
  Name : String
  Code : String
deriving DecidableEq, Repr

/-- Postal address of a station (`Address`). -/
structure Address where
  City : String
  State : String
  Street : String
  Zip : String
deriving DecidableEq, Repr

/-- Detailed per-station record (`StationInfo`).  `Lat`/`Lon` are Go
`float64` values; no cache-layer logic ever inspects them. -/
structure StationInfo where
  Address : Address
  Code : String
  Lat : Float
  Lon : Float
  LineCode1 : String
  LineCode2 : String
  LineCode3 : String
  LineCode4 : String
  Name : String
  StationTogether1 : String
  StationTogether2 : String
deriving Repr

/-- A station entrance (`StationEntrance`), referencing up to two
station codes. -/
structure StationEntrance where
  Description : String
  ID : String
  Lat : Float
  Lon : Float
  Name : String
  StationCode1 : String
  StationCode2 : String
deriving Repr

/-- A rail line (`Lines`). -/
structure Lines where
  DisplayName : String
  EndStationCode : String
  InternalDestination1 : String
  InternalDestination2 : String
  LineCode : String
  StartStationCode : String
deriving DecidableEq, Repr

/-- All-day parking data (`AllDayParking`); nullable costs are options. -/
structure AllDayParking where
  TotalCount : Int
  RiderCost : Option Float
  NonRiderCost : Option Float
deriving Repr

/-- Short-term parking data (`ShortTermParking`). -/
structure ShortTermParking where
  SaturdayRiderCost : Option Float
  SaturdayNonRiderCost : Option Float
  TotalCount : Int
  Notes : Option String
deriving Repr

/-- Per-station parking record (`StationParking`). -/
structure StationParking where
  Code : String
  Notes : Option String
  AllDayParking : AllDayParking
  ShortTermParking : ShortTermParking
deriving Repr

/-- A train arrival prediction (`TrainPrediction`). -/
structure TrainPrediction where
  Car : String
  Destination : String
  DestinationCode : String
  DestinationName : String
  Group : String
  Line : String
  LocationCode : String
  LocationName : String
  Min : String
deriving DecidableEq, Repr

/-- One nanosecond, the unit of Go durations in this model. -/
def nanosecond : Nat := 1

/-- One millisecond in nanoseconds. -/
def millisecond : Nat := 1000000

/-- One second in nanoseconds (`time.Second`). -/
def second : Nat := 1000000000

/-- One minute in nanoseconds (`time.Minute`). -/
def minute : Nat := 60 * second

/-- One hour in nanoseconds (`time.Hour`). -/
def hour : Nat := 60 * minute

/-- Go `cacheDuration = 24 * time.Hour` — freshness window of the static tier. -/
def cacheDuration : Nat := 24 * hour

/-- Go `predictionCacheDuration = 25 * time.Second` — freshness window of the
prediction tier. -/
def predictionCacheDuration : Nat := 25 * second

/-- The mutable state of the static tier: the four cached collections and the
capture timestamp (`cachedStations`, `cachedEntrances`, `cachedLines`,
`cachedParking`, `cacheTime` in backend/cache.go). -/
structure StaticState where
  cachedStations : List StationInfo
  cachedEntrances : List StationEntrance
  cachedLines : List Lines
  cachedParking : List StationParking
  cacheTime : Nat
deriving Repr

/-- Oracle for the five upstream endpoints a static refresh touches.
Each field is the combined result of `fetchAndParse` on that endpoint
(transport or status failure, or JSON unmarshal failure, are all
`GoError`s, exactly as `refreshAllStations` only sees `err != nil`). -/
structure StaticUpstream where
  stationsResp : Except GoError (List Station)
  stationInfo : String → Except GoError StationInfo
  entrancesResp : Except GoError (List StationEntrance)
  linesResp : Except GoError (List Lines)
  parkingResp : Except GoError (List StationParking)

/-- The sequential per-station detail loop of `refreshAllStations`:
each station code is fetched in directory order; a failing fetch is
logged and skipped, a successful one is appended. -/
def fetchStationDetails (u : StaticUpstream) (sl : List Station) : List StationInfo :=
  sl.filterMap (fun st => (u.stationInfo st.Code).toOption)

/-- Model of `refreshAllStations` (backend/cache.go, under the exclusive lock).
`now` is the clock when the double-check runs, `endTime` the clock at the
final `cacheTime = time.Now()`.  Returns the result, the post-call state,
and the number of upstream HTTP requests issued. -/
def refreshAllStations (now endTime : Nat) (u : StaticUpstream) (s : StaticState) :
    Except GoError (List StationInfo) × StaticState × Nat :=
  if now - s.cacheTime < minute ∧ 0 < s.cachedStations.length then
    (.ok s.cachedStations, s, 0)
  else
    match u.stationsResp with
    | .error e => (.error e, s, 1)
    | .ok sl =>
        let detailedStations := fetchStationDetails u sl
        let entrances := match u.entrancesResp with
          | .ok es => es
          | .error _ => s.cachedEntrances
        let lines := match u.linesResp with
          | .ok ls => ls
          | .error _ => s.cachedLines
        let parking := match u.parkingResp with
          | .ok ps => ps
          | .error _ => s.cachedParking
        (.ok detailedStations,
          { cachedStations := detailedStations
            cachedEntrances := entrances
            cachedLines := lines
            cachedParking := parking
            cacheTime := endTime },
          1 + sl.length + 3)

/-- Model of `fetchAllStations` (backend/cache.go): shared-lock fast path
(`time.Since(cacheTime) < cacheDuration && len(cachedStations) > 0`),
falling through to `refreshAllStations` when stale or empty. -/
def fetchAllStations (now endTime : Nat) (u : StaticUpstream) (s : StaticState) :
    Except GoError (List StationInfo) × StaticState × Nat :=
  if now - s.cacheTime < cacheDuration ∧ 0 < s.cachedStations.length then
    (.ok s.cachedStations, s, 0)
  else
    refreshAllStations now endTime u s

/-- The mutable state of the prediction tier (`cachedPredictions`,
`predictionCacheTime`). -/
structure PredictionState where
  cachedPredictions : List TrainPrediction
  predictionCacheTime : Nat
deriving DecidableEq, Repr

/-- Oracle for the prediction refresh: the raw body returned by
`fetchFromWMATA` on the all-stations prediction endpoint, and the result
of `json.Unmarshal` on a given body. -/
structure PredictionUpstream where
  fetchResult : Except GoError String
  parseTrains : String → Except GoError (List TrainPrediction)

/-- Model of `refreshTrainPredictions` (backend/cache.go, under the exclusive
lock): 1-second double-check, single fetch, unmarshal, publish. -/
def refreshTrainPredictions (now endTime : Nat) (u : PredictionUpstream)
    (s : PredictionState) :
    Except GoError (List TrainPrediction) × PredictionState × Nat :=
  if now - s.predictionCacheTime < second ∧ 0 < s.cachedPredictions.length then
    (.ok s.cachedPredictions, s, 0)
  else
    match u.fetchResult with
    | .error e => (.error e, s, 1)
    | .ok body =>
        match u.parseTrains body with
        | .error e => (.error e, s, 1)
        | .ok trains =>
            (.ok trains,
              { cachedPredictions := trains, predictionCacheTime := endTime }, 1)

/-- Model of `fetchTrainPredictions` (backend/cache.go): 25-second fast path,
falling through to `refreshTrainPredictions`. -/
def fetchTrainPredictions (now endTime : Nat) (u : PredictionUpstream)
    (s : PredictionState) :
    Except GoError (List TrainPrediction) × PredictionState × Nat :=
  if now - s.predictionCacheTime < predictionCacheDuration ∧
      0 < s.cachedPredictions.length then
    (.ok s.cachedPredictions, s, 0)
  else
    refreshTrainPredictions now endTime u s

/-- The filter of the entrances handler (registerHandlers): keep exactly
the cached entrances whose `StationCode1` or `StationCode2` equals the
requested code, in cached order. -/
def GetEntrances (stationCode : String) (entrances : List StationEntrance) :
    List StationEntrance :=
  entrances.filter
    (fun entrance =>
      entrance.StationCode1 == stationCode || entrance.StationCode2 == stationCode)

/-- Model of `startBackgroundRefresh` (backend/cache.go) as its invocation trace:
the refresh function runs once immediately (invocation 0) and then once
per ticker tick; the loop never inspects a result to decide whether to
continue, so the trace after `ticks` ticks lists `ticks + 1` results.
`refreshFunc n` is the result of the n-th invocation. -/
def startBackgroundRefresh (refreshFunc : Nat → Except GoError Unit) :
    Nat → List (Except GoError Unit)
  | 0 => [refreshFunc 0]
  | n + 1 => startBackgroundRefresh refreshFunc n ++ [refreshFunc (n + 1)]

/-- Wall-clock time of the n-th invocation of a background loop with the
given tick interval: invocation 0 fires immediately, invocation n at the
n-th ticker tick. -/
def tickTime (interval n : Nat) : Nat := n * interval

/-- Serialized execution of a sequence of callers that all reached
`refreshAllStations` (each caller: double-check clock, publish clock, and
the upstream oracle it would hit).  The exclusive `cacheMutex` makes any
set of concurrent refresh callers execute in some such sequence. -/
def refreshStaticSeq (callers : List (Nat × Nat × StaticUpstream)) (s : StaticState) :
    List (Except GoError (List StationInfo) × Nat) × StaticState :=
  match callers with
  | [] => ([], s)
  | (now, endTime, u) :: rest =>
      let step := refreshAllStations now endTime u s
      let tail := refreshStaticSeq rest step.2.1
      ((step.1, step.2.2) :: tail.1, tail.2)

/-- Serialized execution of a sequence of callers that all reached
`refreshTrainPredictions`. -/
def refreshPredictionSeq (callers : List (Nat × Nat × PredictionUpstream))
    (s : PredictionState) :
    List (Except GoError (List TrainPrediction) × Nat) × PredictionState :=
  match callers with
  | [] => ([], s)
  | (now, endTime, u) :: rest =>
      let step := refreshTrainPredictions now endTime u s
      let tail := refreshPredictionSeq rest step.2.1
      ((step.1, step.2.2) :: tail.1, tail.2)

/-- A concrete detailed station record used to instantiate theorems. -/
def sampleStationInfo : StationInfo :=
  ⟨⟨"Washington", "DC", "607 13th St NW", "20005"⟩, "A01", 38.898303, -77.028099,
    "RD", "", "", "", "Metro Center", "C01", ""⟩

/-- A concrete directory entry used to instantiate theorems. -/
def sampleStation : Station := ⟨"Metro Center", "A01"⟩

/-- A concrete train prediction used to instantiate theorems. -/
def sampleTrain : TrainPrediction :=
  ⟨"6", "Glenmont", "B11", "Glenmont", "1", "RD", "A01", "Metro Center", "3"⟩

/-- A static-tier state holding one station, captured at time 0. -/
def sampleStaticState : StaticState := ⟨[sampleStationInfo], [], [], [], 0⟩

/-- The static-tier state before anything was ever cached. -/
def emptyStaticState : StaticState := ⟨[], [], [], [], 0⟩

/-- A prediction-tier state holding one prediction, captured at time 0. -/
def samplePredictionState : PredictionState := ⟨[sampleTrain], 0⟩

/-- The prediction-tier state before anything was ever cached. -/
def emptyPredictionState : PredictionState := ⟨[], 0⟩

/-- A static-tier upstream oracle that fails every call with a
transport error. -/
def failingStaticUpstream : StaticUpstream :=
  ⟨.error .transport, fun _ => .error .transport, .error .transport,
    .error .transport, .error .transport⟩

/-- A static-tier upstream oracle whose directory fetch succeeds with an
empty directory and whose three sub-fetches succeed empty. -/
def emptyDirectoryUpstream : StaticUpstream :=
  ⟨.ok [], fun _ => .error .transport, .ok [], .ok [], .ok []⟩

/-- A static-tier upstream oracle where every call succeeds and the
directory holds one station. -/
def healthyStaticUpstream : StaticUpstream :=
  ⟨.ok [sampleStation], fun _ => .ok sampleStationInfo, .ok [], .ok [], .ok []⟩

/-- A static-tier upstream oracle where the directory fetch succeeds but
the entrances sub-fetch fails. -/
def entrancesFailingUpstream : StaticUpstream :=
  ⟨.ok [sampleStation], fun _ => .ok sampleStationInfo, .error .transport,
    .ok [], .ok []⟩

/-- A prediction-tier upstream oracle that fails the fetch with a
transport error. -/
def failingPredictionUpstream : PredictionUpstream :=
  ⟨.error .transport, fun _ => .error .transport⟩

/-- A prediction-tier upstream oracle that fetches and parses one train. -/
def healthyPredictionUpstream : PredictionUpstream :=
  ⟨.ok "body", fun _ => .ok [sampleTrain]⟩

/-- The clock of the first caller in the thundering-herd scenario. -/
def herdT : Nat := 1000000000000000

/-- Serialized thundering-herd scenario: two refresh callers hit an empty
static cache; the upstream directory fetch succeeds but is empty; the
second caller runs one second (well inside the 1-minute double-check
window) after the first published. -/
def herdOut : List (Except GoError (List StationInfo) × Nat) × StaticState :=
  refreshStaticSeq
    [(herdT, herdT, emptyDirectoryUpstream),
     (herdT + second, herdT + second, emptyDirectoryUpstream)]
    emptyStaticState

/-- Entrance referencing A01 through StationCode1. -/
def entranceA1 : StationEntrance := ⟨"north", "1", 0.0, 0.0, "e1", "A01", ""⟩

/-- Entrance referencing A01 through StationCode2. -/
def entranceA2 : StationEntrance := ⟨"south", "2", 0.0, 0.0, "e2", "", "A01"⟩

/-- Entrance referencing B01 only. -/
def entranceB : StationEntrance := ⟨"east", "3", 0.0, 0.0, "e3", "B01", ""⟩

/-- A background refresh function that fails on its first invocation and
succeeds afterwards. -/
def flakyRefreshFunc : Nat → Except GoError Unit :=
  fun n => if n = 0 then .error .transport else .ok ()

/-- The double-check inside the static refresh: a caller that acquires
the exclusive lock within one minute of a publish of a non-empty
snapshot returns that snapshot, changes nothing, and makes no call. -/
theorem refreshAllStations_dcheck_hit (now endTime : Nat) (u : StaticUpstream)
    (s : StaticState) (h1 : now - s.cacheTime < minute)
    (h2 : 0 < s.cachedStations.length) :
    refreshAllStations now endTime u s = (.ok s.cachedStations, s, 0) := by
  simp [refreshAllStations, h1, h2]

/-- The double-check inside the prediction refresh. -/
theorem refreshTrainPredictions_dcheck_hit (now endTime : Nat)
    (u : PredictionUpstream) (s : PredictionState)
    (h1 : now - s.predictionCacheTime < second)
    (h2 : 0 < s.cachedPredictions.length) :
    refreshTrainPredictions now endTime u s = (.ok s.cachedPredictions, s, 0) := by
  simp [refreshTrainPredictions, h1, h2]

/-- A static refresh that misses the double-check always issues at least
one upstream request (the directory fetch). -/
theorem refreshAllStations_calls_pos (now endTime : Nat) (u : StaticUpstream)
    (s : StaticState)
    (h : ¬ (now - s.cacheTime < minute ∧ 0 < s.cachedStations.length)) :
    0 < (refreshAllStations now endTime u s).2.2 := by
  unfold refreshAllStations
  rw [if_neg h]
  rcases hr : u.stationsResp with e | sl <;> simp

/-- A prediction refresh that misses the double-check always issues its
one upstream request. -/
theorem refreshTrainPredictions_calls_pos (now endTime : Nat)
    (u : PredictionUpstream) (s : PredictionState)
    (h : ¬ (now - s.predictionCacheTime < second ∧ 0 < s.cachedPredictions.length)) :
    0 < (refreshTrainPredictions now endTime u s).2.2 := by
  unfold refreshTrainPredictions
  rw [if_neg h]
  rcases hf : u.fetchResult with e | body
  · simp
  · rcases hp : u.parseTrains body with e | trains <;> simp [hp]

/-- C1: for every read of either cache tier, if at the freshness check
the cached snapshot is non-empty and strictly younger than the freshness
window (24 hours static, 25 seconds predictions), the read returns the
cached snapshot with no error, leaves the state untouched, and performs
zero upstream network calls. -/
theorem freshness_invariant :
    (∀ (now endTime : Nat) (u : StaticUpstream) (s : StaticState),
        now - s.cacheTime < cacheDuration → 0 < s.cachedStations.length →
        fetchAllStations now endTime u s = (.ok s.cachedStations, s, 0)) ∧
    (∀ (now endTime : Nat) (u : PredictionUpstream) (s : PredictionState),
        now - s.predictionCacheTime < predictionCacheDuration →
        0 < s.cachedPredictions.length →
        fetchTrainPredictions now endTime u s = (.ok s.cachedPredictions, s, 0)) := by
  constructor
  · intro now endTime u s h1 h2
    simp [fetchAllStations, h1, h2]
  · intro now endTime u s h1 h2
    simp [fetchTrainPredictions, h1, h2]

/-- Witness for C1: a one-station static cache read 1000ns after capture
and a one-train prediction cache read 1000ns after capture both serve
from cache with zero upstream calls. -/
theorem freshness_invariant_witness :
    ((1000 : Nat) - sampleStaticState.cacheTime < cacheDuration ∧
      0 < sampleStaticState.cachedStations.length ∧
      fetchAllStations 1000 1000 failingStaticUpstream sampleStaticState =
        (.ok sampleStaticState.cachedStations, sampleStaticState, 0)) ∧
    ((1000 : Nat) - samplePredictionState.predictionCacheTime < predictionCacheDuration ∧
      0 < samplePredictionState.cachedPredictions.length ∧
      fetchTrainPredictions 1000 1000 failingPredictionUpstream samplePredictionState =
        (.ok samplePredictionState.cachedPredictions, samplePredictionState, 0)) :=
  ⟨⟨by decide, by decide,
      freshness_invariant.1 1000 1000 failingStaticUpstream sampleStaticState
        (by decide) (by decide)⟩,
    ⟨by decide, by decide,
      freshness_invariant.2 1000 1000 failingPredictionUpstream samplePredictionState
        (by decide) (by decide)⟩⟩

/-- C8: for both tiers, a non-empty snapshot whose age is exactly the
freshness window is stale — the read falls through and the refresh makes
at least one upstream call — while a snapshot one millisecond younger is
fresh — the read serves it with zero upstream calls. -/
theorem staleness_boundary :
    (∀ (t endTime : Nat) (u : StaticUpstream) (s : StaticState),
        s.cacheTime = t → 0 < s.cachedStations.length →
        0 < (fetchAllStations (t + cacheDuration) endTime u s).2.2 ∧
        fetchAllStations (t + cacheDuration - millisecond) endTime u s =
          (.ok s.cachedStations, s, 0)) ∧
    (∀ (t endTime : Nat) (u : PredictionUpstream) (s : PredictionState),
        s.predictionCacheTime = t → 0 < s.cachedPredictions.length →
        0 < (fetchTrainPredictions (t + predictionCacheDuration) endTime u s).2.2 ∧
        fetchTrainPredictions (t + predictionCacheDuration - millisecond) endTime u s =
          (.ok s.cachedPredictions, s, 0)) := by
  have hm : millisecond ≤ cacheDuration := by
    norm_num [millisecond, cacheDuration, hour, minute, second]
  have hmp : millisecond ≤ predictionCacheDuration := by
    norm_num [millisecond, predictionCacheDuration, second]
  have hms : 0 < millisecond := by norm_num [millisecond]
  have hmin : minute ≤ cacheDuration := by
    norm_num [minute, cacheDuration, hour, second]
  have hsec : second ≤ predictionCacheDuration := by
    norm_num [predictionCacheDuration, second]
  constructor
  · intro t endTime u s hct hne
    constructor
    · have hfast :
          ¬ (t + cacheDuration - s.cacheTime < cacheDuration ∧
            0 < s.cachedStations.length) := by
        rw [hct]; omega
      have hred : fetchAllStations (t + cacheDuration) endTime u s =
          refreshAllStations (t + cacheDuration) endTime u s := by
        unfold fetchAllStations; rw [if_neg hfast]
      rw [hred]
      apply refreshAllStations_calls_pos
      rw [hct]
      omega
    · have hcond : (t + cacheDuration - millisecond) - s.cacheTime < cacheDuration ∧
          0 < s.cachedStations.length := ⟨by rw [hct]; omega, hne⟩
      unfold fetchAllStations
      rw [if_pos hcond]
  · intro t endTime u s hct hne
    constructor
    · have hfast :
          ¬ (t + predictionCacheDuration - s.predictionCacheTime <
              predictionCacheDuration ∧ 0 < s.cachedPredictions.length) := by
        rw [hct]; omega
      have hred : fetchTrainPredictions (t + predictionCacheDuration) endTime u s =
          refreshTrainPredictions (t + predictionCacheDuration) endTime u s := by
        unfold fetchTrainPredictions; rw [if_neg hfast]
      rw [hred]
      apply refreshTrainPredictions_calls_pos
      rw [hct]
      omega
    · have hcond : (t + predictionCacheDuration - millisecond) -
            s.predictionCacheTime < predictionCacheDuration ∧
          0 < s.cachedPredictions.length := ⟨by rw [hct]; omega, hne⟩
      unfold fetchTrainPredictions
      rw [if_pos hcond]

/-- Witness for C8: with a one-item snapshot captured at time 0, a read
at exactly the freshness window hits upstream, and a read one millisecond
earlier serves from cache, on both tiers. -/
theorem staleness_boundary_witness :
    (sampleStaticState.cacheTime = 0 ∧
      0 < sampleStaticState.cachedStations.length ∧
      0 < (fetchAllStations (0 + cacheDuration) 7 failingStaticUpstream
            sampleStaticState).2.2 ∧
      fetchAllStations (0 + cacheDuration - millisecond) 7 failingStaticUpstream
          sampleStaticState =
        (.ok sampleStaticState.cachedStations, sampleStaticState, 0)) ∧
    (samplePredictionState.predictionCacheTime = 0 ∧
      0 < samplePredictionState.cachedPredictions.length ∧
      0 < (fetchTrainPredictions (0 + predictionCacheDuration) 7
            failingPredictionUpstream samplePredictionState).2.2 ∧
      fetchTrainPredictions (0 + predictionCacheDuration - millisecond) 7
          failingPredictionUpstream samplePredictionState =
        (.ok samplePredictionState.cachedPredictions, samplePredictionState, 0)) :=
  ⟨⟨rfl, by decide,
      (staleness_boundary.1 0 7 failingStaticUpstream sampleStaticState rfl
          (by decide)).1,
      (staleness_boundary.1 0 7 failingStaticUpstream sampleStaticState rfl
          (by decide)).2⟩,
    ⟨rfl, by decide,
      (staleness_boundary.2 0 7 failingPredictionUpstream samplePredictionState rfl
          (by decide)).1,
      (staleness_boundary.2 0 7 failingPredictionUpstream samplePredictionState rfl
          (by decide)).2⟩⟩

/-- C3: a prediction refresh that gets past its double-check and whose
upstream fetch fails, or whose body fails to parse, returns that error
and leaves the prediction state (snapshot and timestamp) exactly as it
was. -/
theorem prediction_refresh_all_or_nothing :
    ∀ (now endTime : Nat) (u : PredictionUpstream) (s : PredictionState),
      ¬ (now - s.predictionCacheTime < second ∧ 0 < s.cachedPredictions.length) →
      (∀ e, u.fetchResult = .error e →
        refreshTrainPredictions now endTime u s = (.error e, s, 1)) ∧
      (∀ body e, u.fetchResult = .ok body → u.parseTrains body = .error e →
        refreshTrainPredictions now endTime u s = (.error e, s, 1)) := by
  intro now endTime u s h
  constructor
  · intro e he
    unfold refreshTrainPredictions
    rw [if_neg h, he]
  · intro body e hb hp
    unfold refreshTrainPredictions
    rw [if_neg h]
    simp [hb, hp]

/-- Witness for C3: a failed fetch on an empty, stale prediction cache
returns the transport error and leaves the state untouched. -/
theorem prediction_refresh_all_or_nothing_witness :
    ¬ ((5 : Nat) - emptyPredictionState.predictionCacheTime < second ∧
        0 < emptyPredictionState.cachedPredictions.length) ∧
    failingPredictionUpstream.fetchResult = .error .transport ∧
    refreshTrainPredictions 5 9 failingPredictionUpstream emptyPredictionState =
      (.error .transport, emptyPredictionState, 1) :=
  ⟨by decide, rfl,
    (prediction_refresh_all_or_nothing 5 9 failingPredictionUpstream
        emptyPredictionState (by decide)).1 .transport rfl⟩

/-- C4: a static refresh that gets past its double-check and whose
station-directory fetch (or its parse) fails returns that error and
leaves the whole static state — all four cached collections and the
capture timestamp — exactly as it was. -/
theorem static_refresh_directory_failure_aborts :
    ∀ (now endTime : Nat) (u : StaticUpstream) (s : StaticState),
      ¬ (now - s.cacheTime < minute ∧ 0 < s.cachedStations.length) →
      ∀ e, u.stationsResp = .error e →
        refreshAllStations now endTime u s = (.error e, s, 1) := by
  intro now endTime u s h e he
  unfold refreshAllStations
  rw [if_neg h, he]

/-- Witness for C4: a failed directory fetch on the never-populated
static cache returns the transport error and changes nothing. -/
theorem static_refresh_directory_failure_aborts_witness :
    ¬ ((5 : Nat) - emptyStaticState.cacheTime < minute ∧
        0 < emptyStaticState.cachedStations.length) ∧
    failingStaticUpstream.stationsResp = .error .transport ∧
    refreshAllStations 5 9 failingStaticUpstream emptyStaticState =
      (.error .transport, emptyStaticState, 1) :=
  ⟨by decide, rfl,
    static_refresh_directory_failure_aborts 5 9 failingStaticUpstream
      emptyStaticState (by decide) .transport rfl⟩

/-- A static refresh that misses the double-check and whose directory
fetch succeeds publishes: the detail list becomes the new station
snapshot, each secondary collection takes its fetched value or falls
back to the previous one, and the capture timestamp is set. -/
theorem refreshAllStations_publish (now endTime : Nat) (u : StaticUpstream)
    (s : StaticState)
    (h : ¬ (now - s.cacheTime < minute ∧ 0 < s.cachedStations.length))
    (sl : List Station) (hsl : u.stationsResp = .ok sl) :
    refreshAllStations now endTime u s =
      (.ok (fetchStationDetails u sl),
        { cachedStations := fetchStationDetails u sl
          cachedEntrances := match u.entrancesResp with
            | .ok es => es
            | .error _ => s.cachedEntrances
          cachedLines := match u.linesResp with
            | .ok ls => ls
            | .error _ => s.cachedLines
          cachedParking := match u.parkingResp with
            | .ok ps => ps
            | .error _ => s.cachedParking
          cacheTime := endTime },
        1 + sl.length + 3) := by
  unfold refreshAllStations
  rw [if_neg h]
  simp [hsl]

/-- A prediction refresh that misses the double-check and whose fetch
and parse succeed publishes the parsed trains and the new timestamp. -/
theorem refreshTrainPredictions_publish (now endTime : Nat)
    (u : PredictionUpstream) (s : PredictionState)
    (h : ¬ (now - s.predictionCacheTime < second ∧ 0 < s.cachedPredictions.length))
    (body : String) (trains : List TrainPrediction)
    (hb : u.fetchResult = .ok body) (hp : u.parseTrains body = .ok trains) :
    refreshTrainPredictions now endTime u s =
      (.ok trains, { cachedPredictions := trains, predictionCacheTime := endTime }, 1) := by
  unfold refreshTrainPredictions
  rw [if_neg h]
  simp [hb, hp]

/-- C5: when a static refresh gets past its double-check and the
directory fetch succeeds but a secondary sub-fetch (entrances, lines or
parking) fails, the refresh still returns success, publishes the updated
station list and a new capture timestamp, keeps each failed field at its
previous cached value, and updates each succeeding field. -/
theorem static_refresh_sub_fetch_degradation :
    ∀ (now endTime : Nat) (u : StaticUpstream) (s : StaticState),
      ¬ (now - s.cacheTime < minute ∧ 0 < s.cachedStations.length) →
      ∀ sl, u.stationsResp = .ok sl →
        (refreshAllStations now endTime u s).1 =
          .ok (fetchStationDetails u sl) ∧
        (refreshAllStations now endTime u s).2.1.cachedStations =
          fetchStationDetails u sl ∧
        (refreshAllStations now endTime u s).2.1.cacheTime = endTime ∧
        (∀ e, u.entrancesResp = .error e →
          (refreshAllStations now endTime u s).2.1.cachedEntrances =
            s.cachedEntrances) ∧
        (∀ es, u.entrancesResp = .ok es →
          (refreshAllStations now endTime u s).2.1.cachedEntrances = es) ∧
        (∀ e, u.linesResp = .error e →
          (refreshAllStations now endTime u s).2.1.cachedLines = s.cachedLines) ∧
        (∀ ls, u.linesResp = .ok ls →
          (refreshAllStations now endTime u s).2.1.cachedLines = ls) ∧
        (∀ e, u.parkingResp = .error e →
          (refreshAllStations now endTime u s).2.1.cachedParking =
            s.cachedParking) ∧
        (∀ ps, u.parkingResp = .ok ps →
          (refreshAllStations now endTime u s).2.1.cachedParking = ps) := by
  intro now endTime u s h sl hsl
  rw [refreshAllStations_publish now endTime u s h sl hsl]
  refine ⟨rfl, rfl, rfl,
    fun e he => by simp [he], fun es hes => by simp [hes],
    fun e he => by simp [he], fun ls hls => by simp [hls],
    fun e he => by simp [he], fun ps hps => by simp [hps]⟩

/-- Witness for C5: directory succeeds with one station, entrances fetch
fails; the refresh returns success, publishes the detail list with a new
timestamp, and retains the previous (empty) entrance list. -/
theorem static_refresh_sub_fetch_degradation_witness :
    ¬ (herdT - emptyStaticState.cacheTime < minute ∧
        0 < emptyStaticState.cachedStations.length) ∧
    entrancesFailingUpstream.stationsResp = .ok [sampleStation] ∧
    entrancesFailingUpstream.entrancesResp = .error .transport ∧
    (refreshAllStations herdT 9 entrancesFailingUpstream emptyStaticState).1 =
      .ok (fetchStationDetails entrancesFailingUpstream [sampleStation]) ∧
    (refreshAllStations herdT 9 entrancesFailingUpstream
        emptyStaticState).2.1.cacheTime = 9 ∧
    (refreshAllStations herdT 9 entrancesFailingUpstream
        emptyStaticState).2.1.cachedEntrances = emptyStaticState.cachedEntrances :=
  ⟨by decide, rfl, rfl,
    (static_refresh_sub_fetch_degradation herdT 9 entrancesFailingUpstream
        emptyStaticState (by decide) [sampleStation] rfl).1,
    (static_refresh_sub_fetch_degradation herdT 9 entrancesFailingUpstream
        emptyStaticState (by decide) [sampleStation] rfl).2.2.1,
    (static_refresh_sub_fetch_degradation herdT 9 entrancesFailingUpstream
        emptyStaticState (by decide) [sampleStation] rfl).2.2.2.1 .transport rfl⟩

/-- C10: a static refresh past its double-check whose directory fetch
succeeds with an empty directory, or all of whose per-station detail
fetches fail, publishes an empty station list with a fresh capture
timestamp and returns success; and any read of a state whose station
snapshot is empty misses the fast path and performs an upstream call. -/
theorem empty_refresh_publishes_success :
    (∀ (now endTime : Nat) (u : StaticUpstream) (s : StaticState),
      ¬ (now - s.cacheTime < minute ∧ 0 < s.cachedStations.length) →
      ∀ sl, u.stationsResp = .ok sl →
        (sl = [] ∨ ∀ st ∈ sl, ∃ e, u.stationInfo st.Code = .error e) →
        (refreshAllStations now endTime u s).1 = .ok [] ∧
        (refreshAllStations now endTime u s).2.1.cachedStations = [] ∧
        (refreshAllStations now endTime u s).2.1.cacheTime = endTime) ∧
    (∀ (s2 : StaticState), s2.cachedStations = [] →
      ∀ (now2 end2 : Nat) (u2 : StaticUpstream),
        0 < (fetchAllStations now2 end2 u2 s2).2.2) := by
  constructor
  · intro now endTime u s h sl hsl hcase
    have hdet : fetchStationDetails u sl = [] := by
      rcases hcase with rfl | hall
      · rfl
      · refine List.filterMap_eq_nil_iff.mpr ?_
        intro st hst
        obtain ⟨e, he⟩ := hall st hst
        simp [he, Except.toOption]
    rw [refreshAllStations_publish now endTime u s h sl hsl, hdet]
    exact ⟨rfl, rfl, rfl⟩
  · intro s2 hs2 now2 end2 u2
    have hmiss : ¬ (now2 - s2.cacheTime < cacheDuration ∧
        0 < s2.cachedStations.length) := by simp [hs2]
    have hred : fetchAllStations now2 end2 u2 s2 =
        refreshAllStations now2 end2 u2 s2 := by
      unfold fetchAllStations; rw [if_neg hmiss]
    rw [hred]
    exact refreshAllStations_calls_pos now2 end2 u2 s2 (by simp [hs2])

/-- Witness for C10: an empty directory on the never-populated cache
publishes an empty snapshot as success, and a later read of that empty
state still makes an upstream call. -/
theorem empty_refresh_publishes_success_witness :
    ¬ (herdT - emptyStaticState.cacheTime < minute ∧
        0 < emptyStaticState.cachedStations.length) ∧
    emptyDirectoryUpstream.stationsResp = .ok [] ∧
    (refreshAllStations herdT 9 emptyDirectoryUpstream emptyStaticState).1 =
      .ok [] ∧
    (refreshAllStations herdT 9 emptyDirectoryUpstream
        emptyStaticState).2.1.cachedStations = [] ∧
    (refreshAllStations herdT 9 emptyDirectoryUpstream
        emptyStaticState).2.1.cacheTime = 9 ∧
    emptyStaticState.cachedStations = [] ∧
    0 < (fetchAllStations 99 99 failingStaticUpstream emptyStaticState).2.2 :=
  ⟨by decide, rfl,
    (empty_refresh_publishes_success.1 herdT 9 emptyDirectoryUpstream
        emptyStaticState (by decide) [] rfl (Or.inl rfl)).1,
    (empty_refresh_publishes_success.1 herdT 9 emptyDirectoryUpstream
        emptyStaticState (by decide) [] rfl (Or.inl rfl)).2.1,
    (empty_refresh_publishes_success.1 herdT 9 emptyDirectoryUpstream
        emptyStaticState (by decide) [] rfl (Or.inl rfl)).2.2,
    rfl,
    empty_refresh_publishes_success.2 emptyStaticState rfl 99 99
      failingStaticUpstream⟩

/-- C7: for every non-empty station code, GetEntrances returns exactly
the cached entrances whose StationCode1 or StationCode2 equals the code,
as a subsequence of the cached list (cached order); on the entrances
referencing A01, A01 and B01 with code A01 it returns precisely the
first two. -/
theorem entrances_filter_exact :
    ∀ (code : String), code ≠ "" →
      ∀ (es : List StationEntrance),
        List.Sublist (GetEntrances code es) es ∧
        (∀ e, e ∈ GetEntrances code es ↔
          e ∈ es ∧ (e.StationCode1 = code ∨ e.StationCode2 = code)) ∧
        GetEntrances "A01" [entranceA1, entranceA2, entranceB] =
          [entranceA1, entranceA2] := by
  intro code hc es
  refine ⟨List.filter_sublist es, ?_, ?_⟩
  · intro e
    simp [GetEntrances, List.mem_filter]
  · rfl

/-- Witness for C7: the concrete filter instance with code A01. -/
theorem entrances_filter_exact_witness :
    ("A01" : String) ≠ "" ∧
    GetEntrances "A01" [entranceA1, entranceA2, entranceB] =
      [entranceA1, entranceA2] :=
  ⟨by decide, (entrances_filter_exact "A01" (by decide) []).2.2⟩

/-- The background-refresh trace is the refresh function mapped over the
invocation indices 0, 1, ..., ticks. -/
theorem startBackgroundRefresh_eq_map (f : Nat → Except GoError Unit)
    (ticks : Nat) :
    startBackgroundRefresh f ticks = (List.range (ticks + 1)).map f := by
  induction ticks with
  | zero => rfl
  | succ n ih => simp [startBackgroundRefresh, ih, List.range_succ]

/-- C9: the background scheduler runs its refresh function once
immediately (invocation 0, at time 0) and then once per tick of its
fixed interval: after N ticks the function has run N+1 times, the n-th
invocation result is exactly what the function returns on that run, and
an error on tick N still leaves tick N+1 invoked at one interval later. -/
theorem background_tick_resilience :
    ∀ (refreshFunc : Nat → Except GoError Unit) (ticks : Nat),
      (startBackgroundRefresh refreshFunc ticks).length = ticks + 1 ∧
      (∀ n, n < ticks + 1 →
        (startBackgroundRefresh refreshFunc ticks)[n]? = some (refreshFunc n)) ∧
      (∀ n e, refreshFunc n = .error e → n + 1 < ticks + 1 →
        (startBackgroundRefresh refreshFunc ticks)[n + 1]? =
          some (refreshFunc (n + 1))) ∧
      (∀ interval : Nat, tickTime interval 0 = 0) ∧
      (∀ (interval n : Nat),
        tickTime interval (n + 1) = tickTime interval n + interval) := by
  intro f ticks
  have hget : ∀ n, n < ticks + 1 →
      (startBackgroundRefresh f ticks)[n]? = some (f n) := by
    intro n hn
    rw [startBackgroundRefresh_eq_map, List.getElem?_map, List.getElem?_range hn]
    rfl
  refine ⟨?_, hget, fun n e _ hn => hget (n + 1) hn, fun i => Nat.zero_mul i,
    fun i n => by simp [tickTime, Nat.succ_mul]⟩
  rw [startBackgroundRefresh_eq_map]
  simp

/-- Witness for C9: a refresh function failing on invocation 0 is still
invoked on invocation 1, over a trace of two ticks. -/
theorem background_tick_resilience_witness :
    (startBackgroundRefresh flakyRefreshFunc 2).length = 2 + 1 ∧
    flakyRefreshFunc 0 = .error .transport ∧
    (startBackgroundRefresh flakyRefreshFunc 2)[0 + 1]? =
      some (flakyRefreshFunc 1) :=
  ⟨(background_tick_resilience flakyRefreshFunc 2).1, rfl,
    (background_tick_resilience flakyRefreshFunc 2).2.2.1 0 .transport rfl
      (by decide)⟩

/-- Counterexample for C6: the code accepts only status exactly 200, so
the 2xx status 201 yields an error carrying 201, not the body — the
claim that any 2xx status yields the body with a nil error fails at
status 201. -/
theorem upstream_status_2xx_counterexample :
    (200 : Nat) ≤ 201 ∧ (201 : Nat) < 300 ∧
    fetchFromWMATA (.response 201 "payload") = .error (.upstream 201) ∧
    fetchFromWMATA (.response 201 "payload") ≠ .ok "payload" :=
  ⟨by decide, by decide, rfl, fun hcontra => by simp [fetchFromWMATA] at hcontra⟩

/-- C6 amended: a response with status exactly 200 yields the body with
a nil error; a response with any other status — including other 2xx
statuses — yields an error carrying that status code, which is distinct
from the transport-level error; a transport failure yields the transport
error. -/
theorem upstream_status_check_amended :
    (∀ body : String, fetchFromWMATA (.response 200 body) = .ok body) ∧
    (∀ (status : Nat) (body : String), status ≠ 200 →
      fetchFromWMATA (.response status body) = .error (.upstream status)) ∧
    fetchFromWMATA .transportFail = .error .transport ∧
    (∀ status : Nat, GoError.upstream status ≠ GoError.transport) := by
  refine ⟨fun body => rfl, fun status body h => ?_, rfl, fun status => by simp⟩
  simp [fetchFromWMATA, h]

/-- Witness for C6 amended: a 404 response yields the status-carrying
error. -/
theorem upstream_status_check_amended_witness :
    (404 : Nat) ≠ 200 ∧
    fetchFromWMATA (.response 404 "oops") = .error (.upstream 404) :=
  ⟨by decide, upstream_status_check_amended.2.1 404 "oops" (by decide)⟩

/-- Counterexample for C2: two serialized refresh callers both find an
empty snapshot; the first refresh succeeds but publishes an empty
station list; the second caller runs one second later — inside the
1-minute double-check window — yet still executes a full upstream
refresh sequence (4 calls each), so the number of callers that executed
a refresh sequence is 2, not exactly one. -/
theorem single_flight_counterexample :
    emptyStaticState.cachedStations.length = 0 ∧
    herdT + second - herdT < minute ∧
    herdOut.1.map Prod.snd = [4, 4] ∧
    ¬ (herdOut.1.filter (fun rc => decide (0 < rc.2))).length = 1 := by decide

/-- Followers that reach the static refresh within the 1-minute
double-check window of a published non-empty snapshot each return that
same snapshot with zero upstream calls and leave the state unchanged. -/
theorem refreshStaticSeq_fresh_followers :
    ∀ (followers : List (Nat × Nat × StaticUpstream)) (s : StaticState),
      0 < s.cachedStations.length →
      (∀ c ∈ followers, c.1 - s.cacheTime < minute) →
      (refreshStaticSeq followers s).2 = s ∧
      ∀ rc ∈ (refreshStaticSeq followers s).1, rc = (.ok s.cachedStations, 0) := by
  intro followers
  induction followers with
  | nil =>
      intro s hne hw
      exact ⟨rfl, by intro rc hrc; simp [refreshStaticSeq] at hrc⟩
  | cons c rest ih =>
      intro s hne hw
      obtain ⟨now, endT, u⟩ := c
      have hd := refreshAllStations_dcheck_hit now endT u s
        (hw _ (List.mem_cons_self _ _)) hne
      have ihr := ih s hne (fun cc hcc => hw cc (List.mem_cons_of_mem _ hcc))
      constructor
      · simp [refreshStaticSeq, hd, ihr.1]
      · intro rc hrc
        simp only [refreshStaticSeq, hd] at hrc
        rcases List.mem_cons.mp hrc with h1 | h2
        · exact h1
        · exact ihr.2 rc h2

/-- Followers that reach the prediction refresh within the 1-second
double-check window of a published non-empty snapshot each return that
same snapshot with zero upstream calls and leave the state unchanged. -/
theorem refreshPredictionSeq_fresh_followers :
    ∀ (followers : List (Nat × Nat × PredictionUpstream)) (s : PredictionState),
      0 < s.cachedPredictions.length →
      (∀ c ∈ followers, c.1 - s.predictionCacheTime < second) →
      (refreshPredictionSeq followers s).2 = s ∧
      ∀ rc ∈ (refreshPredictionSeq followers s).1,
        rc = (.ok s.cachedPredictions, 0) := by
  intro followers
  induction followers with
  | nil =>
      intro s hne hw
      exact ⟨rfl, by intro rc hrc; simp [refreshPredictionSeq] at hrc⟩
  | cons c rest ih =>
      intro s hne hw
      obtain ⟨now, endT, u⟩ := c
      have hd := refreshTrainPredictions_dcheck_hit now endT u s
        (hw _ (List.mem_cons_self _ _)) hne
      have ihr := ih s hne (fun cc hcc => hw cc (List.mem_cons_of_mem _ hcc))
      constructor
      · simp [refreshPredictionSeq, hd, ihr.1]
      · intro rc hrc
        simp only [refreshPredictionSeq, hd] at hrc
        rcases List.mem_cons.mp hrc with h1 | h2
        · exact h1
        · exact ihr.2 rc h2

/-- C2 amended: among serialized refresh callers of either tier that all
found a stale or empty snapshot, when the first refresh succeeds and
publishes a NON-EMPTY snapshot, it is the only upstream refresh
sequence: every follower that reaches the refresh within the tier
double-check window (1 minute static, 1 second predictions) of the
publish returns that same snapshot with zero upstream calls and changes
nothing.  (As `single_flight_counterexample` shows, the non-empty
proviso is necessary: a refresh that publishes an empty snapshot leaves
every later caller re-running the full refresh.) -/
theorem single_flight_amended :
    (∀ (now1 end1 : Nat) (u1 : StaticUpstream) (s0 : StaticState)
        (followers : List (Nat × Nat × StaticUpstream)),
      ¬ (now1 - s0.cacheTime < minute ∧ 0 < s0.cachedStations.length) →
      ∀ sl, u1.stationsResp = .ok sl →
        0 < (fetchStationDetails u1 sl).length →
        (∀ c ∈ followers, c.1 - end1 < minute) →
        ∀ r1 s1 c1, refreshAllStations now1 end1 u1 s0 = (r1, s1, c1) →
          0 < c1 ∧ r1 = .ok s1.cachedStations ∧ s1.cacheTime = end1 ∧
          (refreshStaticSeq followers s1).2 = s1 ∧
          ∀ rc ∈ (refreshStaticSeq followers s1).1,
            rc = (.ok s1.cachedStations, 0)) ∧
    (∀ (now1 end1 : Nat) (u1 : PredictionUpstream) (s0 : PredictionState)
        (followers : List (Nat × Nat × PredictionUpstream)),
      ¬ (now1 - s0.predictionCacheTime < second ∧
          0 < s0.cachedPredictions.length) →
      ∀ body trains, u1.fetchResult = .ok body →
        u1.parseTrains body = .ok trains →
        0 < trains.length →
        (∀ c ∈ followers, c.1 - end1 < second) →
        ∀ r1 s1 c1, refreshTrainPredictions now1 end1 u1 s0 = (r1, s1, c1) →
          0 < c1 ∧ r1 = .ok s1.cachedPredictions ∧
          s1.predictionCacheTime = end1 ∧
          (refreshPredictionSeq followers s1).2 = s1 ∧
          ∀ rc ∈ (refreshPredictionSeq followers s1).1,
            rc = (.ok s1.cachedPredictions, 0)) := by
  constructor
  · intro now1 end1 u1 s0 followers h sl hsl hne hw r1 s1 c1 heq
    rw [refreshAllStations_publish now1 end1 u1 s0 h sl hsl] at heq
    rw [Prod.mk.injEq, Prod.mk.injEq] at heq
    obtain ⟨hr, hs, hc⟩ := heq
    subst hr; subst hs; subst hc
    refine ⟨by omega, rfl, rfl, ?_, ?_⟩
    · exact (refreshStaticSeq_fresh_followers followers _ hne hw).1
    · exact (refreshStaticSeq_fresh_followers followers _ hne hw).2
  · intro now1 end1 u1 s0 followers h body trains hb hp hne hw r1 s1 c1 heq
    rw [refreshTrainPredictions_publish now1 end1 u1 s0 h body trains hb hp] at heq
    rw [Prod.mk.injEq, Prod.mk.injEq] at heq
    obtain ⟨hr, hs, hc⟩ := heq
    subst hr; subst hs; subst hc
    refine ⟨by omega, rfl, rfl, ?_, ?_⟩
    · exact (refreshPredictionSeq_fresh_followers followers _ hne hw).1
    · exact (refreshPredictionSeq_fresh_followers followers _ hne hw).2

/-- Witness for C2 amended: a first static refresh on the empty cache
publishes one station; a follower one second later returns that snapshot
with zero upstream calls. -/
theorem single_flight_amended_witness :
    ¬ (herdT - emptyStaticState.cacheTime < minute ∧
        0 < emptyStaticState.cachedStations.length) ∧
    healthyStaticUpstream.stationsResp = .ok [sampleStation] ∧
    0 < (fetchStationDetails healthyStaticUpstream [sampleStation]).length ∧
    (∀ c ∈ [(herdT + second, herdT + second, failingStaticUpstream)],
      c.1 - herdT < minute) ∧
    (0 < (refreshAllStations herdT herdT healthyStaticUpstream
          emptyStaticState).2.2 ∧
      (refreshAllStations herdT herdT healthyStaticUpstream
          emptyStaticState).1 =
        .ok (refreshAllStations herdT herdT healthyStaticUpstream
            emptyStaticState).2.1.cachedStations ∧
      (refreshAllStations herdT herdT healthyStaticUpstream
          emptyStaticState).2.1.cacheTime = herdT ∧
      (refreshStaticSeq [(herdT + second, herdT + second, failingStaticUpstream)]
          (refreshAllStations herdT herdT healthyStaticUpstream
            emptyStaticState).2.1).2 =
        (refreshAllStations herdT herdT healthyStaticUpstream
          emptyStaticState).2.1 ∧
      ∀ rc ∈ (refreshStaticSeq
          [(herdT + second, herdT + second, failingStaticUpstream)]
          (refreshAllStations herdT herdT healthyStaticUpstream
            emptyStaticState).2.1).1,
        rc = (.ok (refreshAllStations herdT herdT healthyStaticUpstream
            emptyStaticState).2.1.cachedStations, 0)) :=
  ⟨by decide, rfl, by decide, by decide,
    single_flight_amended.1 herdT herdT healthyStaticUpstream emptyStaticState
      [(herdT + second, herdT + second, failingStaticUpstream)]
      (by decide) [sampleStation] rfl (by decide) (by decide)
      (refreshAllStations herdT herdT healthyStaticUpstream emptyStaticState).1
      (refreshAllStations herdT herdT healthyStaticUpstream emptyStaticState).2.1
      (refreshAllStations herdT herdT healthyStaticUpstream emptyStaticState).2.2
      rfl⟩

end Transit
